import Mathlib

/-!
Verification development for the session synchronization subsystem
implemented in `src/src/hooks/useAuth.ts`.

The hook is embedded shallowly: the outcome of every external interaction
(environment variables, `localStorage` contents as their JSON-parse
outcomes, the identity service's responses, the profile service's
responses) is packaged in an `Env`/`Store` record, and each operation of
the hook (`getInitialSession`, the `onAuthStateChange` handler, `signIn`,
`signUp`, `signOut`, `updateProfile`) becomes a Lean function from that
record to the sequence of `AuthState` values it writes, the resulting
persistent store, and its returned `{success, error}` value.

JavaScript details carried over faithfully:
  * `JSON.parse` of a stored string either throws (`Parsed.corrupt`) or
    yields a structured value; a parsed demo session object need not carry
    a `user` field (`Session.user = none` models `session.user` being
    `undefined`, as for the stored text `"{}"`).
  * `!!x` on a string is false for the empty string (`truthyStr`).
  * an absent or empty environment variable is modelled as `none`
    (both are falsy under `!supabaseUrl`).
  * the unmount flag `mounted` is passed as a boolean; operations whose
    source never consults it simply do not take it.
-/

namespace UseAuth

structure User where
  id : String
  email : String
  email_confirmed_at : Option String
  deriving DecidableEq

structure UserProfile where
  id : String
  onboarding_completed : Bool
  deriving DecidableEq

/-- `AuthState` of `useAuth.ts` (lines 5–10). -/
structure AuthState where
  user : Option User
  profile : Option UserProfile
  loading : Bool
  error : Option String
  deriving DecidableEq

/-- A parsed session object; `user = none` models a parsed JSON object with
no (or a null) `user` field, e.g. the stored text `"\x7b\x7d"`. -/
structure Session where
  user : Option User
  deriving DecidableEq

/-- Outcome of `JSON.parse` on a stored string: a throw or a value. -/
inductive Parsed (α : Type) where
  | corrupt : Parsed α
  | ok : α → Parsed α
  deriving DecidableEq

/-- The `localStorage` keys the hook uses, each as its parse outcome
(`none` = key absent or empty string, which are both falsy). -/
structure Store where
  demoMode : Option String
  demoSession : Option (Parsed Session)
  userProfile : Option (Parsed UserProfile)
  deriving DecidableEq

/-- Result of `supabase.auth.getSession()` when it does not throw. -/
structure GetSessionRes where
  session : Option Session
  error : Option String
  deriving DecidableEq

/-- Result of `supabase.auth.signInWithPassword`. -/
structure SignInRes where
  user : Option User
  error : Option String
  deriving DecidableEq

/-- Result of `supabase.auth.signUp`. -/
structure SignUpRes where
  user : Option User
  error : Option String
  deriving DecidableEq

/-- Result of the `user_profiles` update + `.single()` call. -/
structure UpdateRes where
  data : UserProfile
  error : Option String
  deriving DecidableEq

/-- One activation's view of every external collaborator. -/
structure Env where
  supabaseUrl : Option String
  supabaseKey : Option String
  now : String
  getSessionRes : Parsed GetSessionRes
  profileFetch : Parsed (Option UserProfile)
  signInRes : SignInRes
  signUpRes : SignUpRes
  signOutError : Option String
  updateRes : UpdateRes
  deriving DecidableEq

/-- Whether a character list starts with `demo`. -/
def demoAt : List Char → Bool
  | 'd' :: 'e' :: 'm' :: 'o' :: _ => true
  | _ => false

/-- Whether a character list has `demo` as a contiguous sublist. -/
def hasDemo : List Char → Bool
  | [] => false
  | c :: rest => demoAt (c :: rest) || hasDemo rest

/-- `supabaseUrl.includes('demo')`. -/
def includesDemo (s : String) : Bool := hasDemo s.toList

/-- The condition of step 2 of `getInitialSession` (line 55):
`!supabaseUrl || !supabaseKey || supabaseUrl.includes('demo')`. -/
def isUnconfigured (e : Env) : Bool :=
  e.supabaseUrl.isNone || e.supabaseKey.isNone ||
    includesDemo (e.supabaseUrl.getD "")

/-- The skip condition of `checkSupabaseConnection` (line 147):
`!supabaseUrl || supabaseUrl.includes('demo')` — the key is not consulted. -/
def subscriptionSkipped (e : Env) : Bool :=
  e.supabaseUrl.isNone || includesDemo (e.supabaseUrl.getD "")

/-- `checkSupabaseConnection` registers the auth-change subscription iff
its skip condition fails (lines 144–206). -/
def checkSupabaseConnection (e : Env) : Bool := !(subscriptionSkipped e)

def signedOutState : AuthState := ⟨none, none, false, none⟩

/-- The state `useState` is created with (lines 13–18). -/
def initialAuthState : AuthState := ⟨none, none, true, none⟩

/-- `JSON.parse('\x7b\x7d')`: the object obtained when the `userProfile`
key is absent — every field undefined, hence falsy. -/
def emptyProfile : UserProfile := ⟨"", false⟩

/-- The demo user synthesized by `signIn` (lines 244–250). -/
def demoUser (now : String) : User := ⟨"demo-user-id", "demo", some now⟩

/-- The demo profile synthesized by `signIn` (lines 225–239), restricted to
the fields the embedding tracks. -/
def demoProfile : UserProfile := ⟨"demo-user-id", true⟩

/-- A guarded state write: `if (mounted) setAuthState(...)`. -/
def writeIf (mounted : Bool) (s : AuthState) : List AuthState :=
  if mounted then [s] else []

structure InitResult where
  writes : List AuthState
  store : Store
  contactedService : Bool
  deriving DecidableEq

/-- The store after the demo keys are removed (lines 45–47, 455–457). -/
def clearedStore : Store := ⟨none, none, none⟩

/-- Steps 2–3 of `getInitialSession` (lines 51–127): configuration check,
then the one-shot `getSession` fetch and optional profile enrichment.
`contactedService` records whether `supabase.auth.getSession` was called. -/
def getInitialSessionRemote (e : Env) (st : Store) (mounted : Bool) :
    InitResult :=
  if isUnconfigured e then ⟨writeIf mounted signedOutState, st, false⟩
  else
    match e.getSessionRes with
    | .corrupt => ⟨writeIf mounted signedOutState, st, true⟩
    | .ok r =>
      if r.error.isSome then ⟨writeIf mounted signedOutState, st, true⟩
      else
        match r.session.bind Session.user with
        | some u =>
          match e.profileFetch with
          | .ok p => ⟨writeIf mounted ⟨some u, p, false, none⟩, st, true⟩
          | .corrupt => ⟨writeIf mounted ⟨some u, none, false, none⟩, st, true⟩
        | none => ⟨writeIf mounted signedOutState, st, true⟩

/-- `getInitialSession` (lines 23–139).  Step 1 is the offline check: with
`demoMode === 'true'` and a present `demoSession`, both stored values are
parsed; a parse throw clears the three keys and falls through to the
remote path; otherwise the cached pair is adopted as-is. -/
def getInitialSession (e : Env) (st : Store) (mounted : Bool) : InitResult :=
  if st.demoMode = some "true" && st.demoSession.isSome then
    match st.demoSession with
    | some (.ok sess) =>
      match st.userProfile with
      | some .corrupt => getInitialSessionRemote e clearedStore mounted
      | some (.ok p) =>
        ⟨writeIf mounted ⟨sess.user, some p, false, none⟩, st, false⟩
      | none =>
        ⟨writeIf mounted ⟨sess.user, some emptyProfile, false, none⟩, st, false⟩
    | some .corrupt => getInitialSessionRemote e clearedStore mounted
    | none => getInitialSessionRemote e st mounted
  else getInitialSessionRemote e st mounted

inductive AuthChangeEvent where
  | signedIn
  | signedOut
  | tokenRefreshed
  | other
  deriving DecidableEq

/-- The `onAuthStateChange` handler of the defensive draft (lines 152–196).
It returns the state after the event; returning `prev` models "no write". -/
def handleAuthEvent (e : Env) (mounted : Bool) (ev : AuthChangeEvent)
    (sess : Option Session) (prev : AuthState) : AuthState :=
  if !mounted then prev
  else
    match ev, sess.bind Session.user with
    | .signedIn, some u =>
      match e.profileFetch with
      | .ok p => ⟨some u, p, false, none⟩
      | .corrupt => ⟨some u, none, false, none⟩
    | .signedOut, _ => signedOutState
    | .tokenRefreshed, some u =>
      match e.profileFetch with
      | .ok p => { prev with user := some u, profile := p, error := none }
      | .corrupt => prev
    | _, _ => prev

/-- The `onAuthStateChange` handler of the second draft (lines 317–348),
which awaits `getCurrentUserProfile` without try/catch: a profile-fetch
rejection propagates out of the handler (`Except.error`). -/
def handleAuthEventDraft2 (e : Env) (mounted : Bool) (ev : AuthChangeEvent)
    (sess : Option Session) (prev : AuthState) : Except Unit AuthState :=
  if !mounted then .ok prev
  else
    match ev, sess.bind Session.user with
    | .signedIn, some u =>
      match e.profileFetch with
      | .ok p => .ok ⟨some u, p, false, none⟩
      | .corrupt => .error ()
    | .signedOut, _ => .ok signedOutState
    | .tokenRefreshed, some u =>
      match e.profileFetch with
      | .ok p => .ok { prev with user := some u, profile := p, error := none }
      | .corrupt => .error ()
    | _, _ => .ok prev

structure MutResult where
  success : Bool
  error : Option String
  deriving DecidableEq

structure MutationRun where
  writes : List AuthState
  store : Store
  contactedService : Bool
  result : MutResult
  deriving DecidableEq

def demoLoginFailMsg : String := "デモログインに失敗しました"
def notConfiguredMsg : String := "Supabaseが設定されていません"
def notAuthenticatedMsg : String := "User not authenticated"
def unknownErrorMsg : String := "Unknown error occurred"

/-- `signIn` of the defensive draft (lines 218–314). The writes are the
successive values given to `setAuthState`; `s` is the state at call time. -/
def signIn (e : Env) (st : Store) (s : AuthState) (email password : String) :
    MutationRun :=
  let w1 : AuthState := { s with loading := true, error := none }
  if email = "demo" && password = "pass9981" then
    let du := demoUser e.now
    let st' : Store := ⟨some "true", some (.ok ⟨some du⟩), some (.ok demoProfile)⟩
    ⟨[w1, ⟨some du, some demoProfile, false, none⟩], st', false, ⟨true, none⟩⟩
  else if e.supabaseUrl.isNone || includesDemo (e.supabaseUrl.getD "") then
    ⟨[w1, { w1 with loading := false, error := some notConfiguredMsg }], st,
      false, ⟨false, some notConfiguredMsg⟩⟩
  else
    match e.signInRes.error with
    | some msg =>
      ⟨[w1, { w1 with loading := false, error := some msg }], st, true,
        ⟨false, some msg⟩⟩
    | none =>
      match e.signInRes.user with
      | some u =>
        match e.profileFetch with
        | .ok p => ⟨[w1, ⟨some u, p, false, none⟩], st, true, ⟨true, none⟩⟩
        | .corrupt =>
          ⟨[w1, ⟨some u, none, false, none⟩], st, true, ⟨true, none⟩⟩
      | none => ⟨[w1], st, true, ⟨false, some unknownErrorMsg⟩⟩

/-- `signUp` (lines 389–447). Profile-seed upsert failures are only logged,
so they do not appear in the state or the result. -/
def signUp (e : Env) (st : Store) (s : AuthState) : MutationRun :=
  let w1 : AuthState := { s with loading := true, error := none }
  match e.signUpRes.error with
  | some msg =>
    ⟨[w1, { w1 with loading := false, error := some msg }], st, true,
      ⟨false, some msg⟩⟩
  | none => ⟨[w1, { w1 with loading := false }], st, true, ⟨true, none⟩⟩

/-- `signOut` (lines 449–490).  The source never consults the unmount flag
here, so the function does not take one: its writes happen in any case. -/
def signOut (e : Env) (st : Store) (s : AuthState) : MutationRun :=
  let w1 : AuthState := { s with loading := true, error := none }
  if st.demoMode = some "true" then
    ⟨[w1, signedOutState], clearedStore, false, ⟨true, none⟩⟩
  else
    match e.signOutError with
    | some msg =>
      ⟨[w1, { w1 with loading := false, error := some msg }], st, true,
        ⟨false, some msg⟩⟩
    | none =>
      ⟨[w1, signedOutState], { st with userProfile := none }, true,
        ⟨true, none⟩⟩

/-- `updateProfile` (lines 492–525). The precondition check
`if (!authState.user) throw ...` runs after the entry write; the throw is
caught by the surrounding catch, which writes the error message. -/
def updateProfile (e : Env) (s : AuthState) : List AuthState × MutResult :=
  let w1 : AuthState := { s with loading := true, error := none }
  match s.user with
  | none =>
    ⟨[w1, { w1 with loading := false, error := some notAuthenticatedMsg }],
      ⟨false, some notAuthenticatedMsg⟩⟩
  | some _ =>
    match e.updateRes.error with
    | some msg =>
      ⟨[w1, { w1 with loading := false, error := some msg }],
        ⟨false, some msg⟩⟩
    | none =>
      let w2 : AuthState :=
        { w1 with profile := some e.updateRes.data, loading := false, error := none }
      ⟨[w1, w2], ⟨true, none⟩⟩

/-- JavaScript `!!` on a nullable string: null/undefined and `""` are falsy. -/
def truthyStr : Option String → Bool
  | none => false
  | some s => !(s == "")

/-- `isAuthenticated: !!authState.user` (line 551). -/
def isAuthenticated (s : AuthState) : Bool := s.user.isSome

/-- `isEmailConfirmed: !!authState.user?.email_confirmed_at` (line 552). -/
def isEmailConfirmed (s : AuthState) : Bool :=
  truthyStr (s.user.bind User.email_confirmed_at)

/-- `isOnboardingCompleted: !!authState.profile?.onboarding_completed`
(line 553). -/
def isOnboardingCompleted (s : AuthState) : Bool :=
  match s.profile with
  | none => false
  | some p => p.onboarding_completed

/-- Number of true-to-false transitions along a boolean trace. -/
def countTF : List Bool → Nat
  | a :: b :: rest => (if a && !b then 1 else 0) + countTF (b :: rest)
  | _ => 0

/-- The state after a write sequence starting from `s`. -/
def finalState (s : AuthState) (ws : List AuthState) : AuthState :=
  ws.getLastD s

/-- `loading` goes from true to false exactly once along the writes and is
false in the final state. -/
def settlesOnce (s0 : AuthState) (ws : List AuthState) : Prop :=
  countTF ((s0 :: ws).map AuthState.loading) = 1 ∧
    (finalState s0 ws).loading = false

/-- The spec's state invariant: `profile` non-null only with `identity`. -/
def profileImpliesUser (s : AuthState) : Prop :=
  s.profile.isSome = true → s.user.isSome = true

instance (s : AuthState) : Decidable (profileImpliesUser s) := by
  unfold profileImpliesUser; infer_instance

/-- One activation as the effect body runs it (lines 20–216): the
initialization sequence and the decision whether the change-stream
subscription gets registered. -/
def activation (e : Env) (st : Store) (mounted : Bool) : InitResult × Bool :=
  (getInitialSession e st mounted, checkSupabaseConnection e)

/-! Concrete sample inputs used by witnesses and counterexamples. -/

def sampleUser : User := ⟨"u1", "a@b.c", some "2026-01-01T00:00:00.000Z"⟩

def sampleProfile : UserProfile := ⟨"u1", true⟩

def sampleSession : Session := ⟨some sampleUser⟩

/-- A configured environment whose profile fetch rejects and whose
password sign-in yields neither an error nor a user. -/
def envSample : Env where
  supabaseUrl := some "https://abc.supabase.co"
  supabaseKey := some "anonkey"
  now := "2026-02-03T04:05:06.000Z"
  getSessionRes := .ok ⟨some sampleSession, none⟩
  profileFetch := .corrupt
  signInRes := ⟨none, none⟩
  signUpRes := ⟨none, none⟩
  signOutError := none
  updateRes := ⟨sampleProfile, none⟩

/-- Same environment with the anon key absent. -/
def envKeyless : Env := { envSample with supabaseKey := none }

/-- Same environment with a succeeding profile fetch. -/
def envProfOk : Env := { envSample with profileFetch := .ok (some sampleProfile) }

def stEmpty : Store := ⟨none, none, none⟩

/-- A store whose demo session parses to an object without a user field,
as the stored text consisting of an opening and a closing brace does. -/
def stBadDemo : Store := ⟨some "true", some (.ok ⟨none⟩), none⟩

def stateSignedIn : AuthState := ⟨some sampleUser, some sampleProfile, false, none⟩

/-- A settled state carrying a previously surfaced error. -/
def statePrevError : AuthState := ⟨some sampleUser, some ⟨"u1", false⟩, false, some "x"⟩

/-- A state whose identity has an empty-string confirmation timestamp. -/
def stateEmptyTs : AuthState := ⟨some ⟨"x", "e", some ""⟩, none, false, none⟩

/-! ### Helper lemmas -/

theorem settlesOnce_single (w : AuthState) (h : w.loading = false) :
    settlesOnce initialAuthState [w] := by
  simp [settlesOnce, countTF, finalState, initialAuthState, h]

theorem settlesOnce_pair (s w2 : AuthState) (h : w2.loading = false) :
    settlesOnce s [{ s with loading := true, error := none }, w2] := by
  simp [settlesOnce, countTF, finalState, h]

theorem initRemote_writes (e : Env) (st : Store) :
    ∃ w, (getInitialSessionRemote e st true).writes = [w] ∧ w.loading = false := by
  unfold getInitialSessionRemote writeIf
  split
  · exact ⟨signedOutState, rfl, rfl⟩
  · split
    · exact ⟨signedOutState, rfl, rfl⟩
    · split
      · exact ⟨signedOutState, rfl, rfl⟩
      · split
        · split
          · exact ⟨_, rfl, rfl⟩
          · exact ⟨_, rfl, rfl⟩
        · exact ⟨signedOutState, rfl, rfl⟩

theorem init_writes (e : Env) (st : Store) :
    ∃ w, (getInitialSession e st true).writes = [w] ∧ w.loading = false := by
  unfold getInitialSession
  split
  · split
    · split
      · exact initRemote_writes e clearedStore
      · exact ⟨_, rfl, rfl⟩
      · exact ⟨_, rfl, rfl⟩
    · exact initRemote_writes e clearedStore
    · exact initRemote_writes e st
  · exact initRemote_writes e st

/-! ### Claim theorems -/

/-- C2: during initialization, when the offline path is not taken, the
service is configured, `getSession` succeeds with an active session, and
the profile fetch rejects, the single written state is exactly
`{identity, profile:null, loading:false, error:null}` — the failure
neither blocks authentication nor sets `error`. -/
theorem init_profileGap_adopts_identity (e : Env) (st : Store) (u : User)
    (hdemo : st.demoMode ≠ some "true")
    (hconf : isUnconfigured e = false)
    (hsess : e.getSessionRes = .ok ⟨some ⟨some u⟩, none⟩)
    (hprof : e.profileFetch = .corrupt) :
    getInitialSession e st true = ⟨[⟨some u, none, false, none⟩], st, true⟩ := by
  unfold getInitialSession getInitialSessionRemote writeIf
  simp [hdemo, hconf, hsess, hprof]

/-- Witness for C2 at a concrete environment and store. -/
theorem init_profileGap_adopts_identity_witness :
    getInitialSession envSample stEmpty true =
      ⟨[⟨some sampleUser, none, false, none⟩], stEmpty, true⟩ :=
  init_profileGap_adopts_identity envSample stEmpty sampleUser
    (by decide) (by decide) rfl rfl

/-- C1 counterexample: when `signInWithPassword` resolves with neither an
error nor a user, `signIn` returns `\x7bsuccess:false, error:'Unknown error
occurred'\x7d` without any terminal write, so after the promise settles
`loading` is still true and no true-to-false transition happened. -/
theorem signIn_unknown_path_leaves_loading :
    (finalState signedOutState
        (signIn envSample stEmpty signedOutState "a@b.c" "x").writes).loading = true ∧
      countTF ((signedOutState ::
          (signIn envSample stEmpty signedOutState "a@b.c" "x").writes).map
        AuthState.loading) = 0 ∧
      (signIn envSample stEmpty signedOutState "a@b.c" "x").result =
        ⟨false, some unknownErrorMsg⟩ := by
  decide

/-- C1 amended: `loading` transitions from true to false exactly once per
initialization and per mutation call and is false once the call settles,
for the initialization sequence, `signUp`, `signOut` and `updateProfile`
unconditionally, and for `signIn` whenever the password-authentication
response carries an error or a user (the response with neither leaves
`loading` true). -/
theorem loading_settles_amended (e : Env) (st : Store) (s : AuthState)
    (email password : String) :
    settlesOnce initialAuthState (getInitialSession e st true).writes ∧
    settlesOnce s (signUp e st s).writes ∧
    settlesOnce s (signOut e st s).writes ∧
    settlesOnce s (updateProfile e s).1 ∧
    ((e.signInRes.error.isSome = true ∨ e.signInRes.user.isSome = true) →
      settlesOnce s (signIn e st s email password).writes) := by
  refine ⟨?_, ?_, ?_, ?_, ?_⟩
  · obtain ⟨w, hw, hl⟩ := init_writes e st
    rw [hw]; exact settlesOnce_single w hl
  · unfold signUp
    split
    · exact settlesOnce_pair s _ rfl
    · exact settlesOnce_pair s _ rfl
  · unfold signOut
    split
    · exact settlesOnce_pair s _ rfl
    · split
      · exact settlesOnce_pair s _ rfl
      · exact settlesOnce_pair s _ rfl
  · unfold updateProfile
    split
    · exact settlesOnce_pair s _ rfl
    · split
      · exact settlesOnce_pair s _ rfl
      · exact settlesOnce_pair s _ rfl
  · intro h
    unfold signIn
    split
    · exact settlesOnce_pair s _ rfl
    · split
      · exact settlesOnce_pair s _ rfl
      · split
        · exact settlesOnce_pair s _ rfl
        · split
          · split
            · exact settlesOnce_pair s _ rfl
            · exact settlesOnce_pair s _ rfl
          · simp_all

/-- C3 counterexample: `signOut` (lines 449–490) never consults the
unmount flag — the flag is local to the effect closure and out of scope
there — so its writes happen identically in a deactivated context: from a
signed-in state it still writes twice and changes the state, rather than
being a no-op. -/
theorem signOut_writes_after_deactivation :
    (signOut envSample stEmpty stateSignedIn).writes ≠ [] ∧
      finalState stateSignedIn (signOut envSample stEmpty stateSignedIn).writes ≠
        stateSignedIn := by
  decide

/-- C3 amended: the initialization sequence and the change-stream handler
check the Lifecycle Guard before every state write, so after deactivation
they write nothing; the Mutation Façade operations do not consult the
guard (see the counterexample). -/
theorem guard_checked_init_and_stream (e : Env) (st : Store)
    (ev : AuthChangeEvent) (sess : Option Session) (prev : AuthState) :
    (getInitialSession e st false).writes = [] ∧
      handleAuthEvent e false ev sess prev = prev := by
  have hrem : ∀ st', (getInitialSessionRemote e st' false).writes = [] := by
    intro st'
    unfold getInitialSessionRemote writeIf
    split
    · rfl
    · split
      · rfl
      · split
        · rfl
        · split
          · split
            · rfl
            · rfl
          · rfl
  constructor
  · unfold getInitialSession
    split
    · split
      · split
        · exact hrem clearedStore
        · rfl
        · rfl
      · exact hrem clearedStore
      · exact hrem st
    · exact hrem st
  · rfl

/-- C5 counterexample: `updateProfile` called while no identity is held
does return the precondition failure, but it does not leave `AuthState`
unchanged: the surrounding catch writes the precondition message into
`error` (and the entry write had set `loading` to true first). -/
theorem updateProfile_null_identity_changes_state :
    (updateProfile envSample signedOutState).2 =
        ⟨false, some notAuthenticatedMsg⟩ ∧
      finalState signedOutState (updateProfile envSample signedOutState).1 ≠
        signedOutState := by
  decide

/-- C5 amended: `updateProfile` with a null identity returns
`\x7bsuccess:false, error:'User not authenticated'\x7d` and ends with
`identity` and `profile` unchanged, `loading` false, and `error` set to
the precondition message (so the state is not unchanged: `error`, and
transiently `loading`, are written). -/
theorem updateProfile_precondition_amended (e : Env) (s : AuthState)
    (h : s.user = none) :
    (updateProfile e s).2 = ⟨false, some notAuthenticatedMsg⟩ ∧
      finalState s (updateProfile e s).1 =
        { s with loading := false, error := some notAuthenticatedMsg } := by
  unfold updateProfile finalState
  simp [h]

/-- Witness for C5 amended at the signed-out state. -/
theorem updateProfile_precondition_amended_witness :
    (updateProfile envSample signedOutState).2 =
        ⟨false, some notAuthenticatedMsg⟩ ∧
      finalState signedOutState (updateProfile envSample signedOutState).1 =
        { signedOutState with loading := false, error := some notAuthenticatedMsg } :=
  updateProfile_precondition_amended envSample signedOutState rfl

/-- C4 counterexample: with `demoMode = 'true'` and a stored demo session
that parses to an object without a user field, the demo branch of
`getInitialSession` (lines 29–49) adopts `user: undefined` together with
the parsed (or empty) profile object, producing a state whose `profile` is
non-null while `identity` is null. -/
theorem corrupt_demo_session_breaks_invariant :
    (finalState initialAuthState
        (getInitialSession envSample stBadDemo true).writes).profile.isSome = true ∧
      (finalState initialAuthState
        (getInitialSession envSample stBadDemo true).writes).user = none := by
  decide

/-- C4 amended: every state written by the remote initialization path, the
change-stream handler and the Mutation Façade operations satisfies the
invariant (profile non-null only with identity non-null), and the offline
initialization path preserves it whenever every parseable cached demo
session carries a user; a parseable cached session without a user violates
it (see the counterexample). -/
theorem profile_user_invariant_amended (e : Env) (st : Store)
    (s prev : AuthState) (email password : String) (m : Bool)
    (ev : AuthChangeEvent) (sess : Option Session) :
    ((∀ sess', st.demoSession = some (.ok sess') → sess'.user.isSome = true) →
        ∀ w ∈ (getInitialSession e st true).writes, profileImpliesUser w) ∧
    (profileImpliesUser prev →
        profileImpliesUser (handleAuthEvent e m ev sess prev)) ∧
    (profileImpliesUser s →
        ∀ w ∈ (signIn e st s email password).writes, profileImpliesUser w) ∧
    (profileImpliesUser s →
        ∀ w ∈ (signUp e st s).writes, profileImpliesUser w) ∧
    (profileImpliesUser s →
        ∀ w ∈ (signOut e st s).writes, profileImpliesUser w) ∧
    (profileImpliesUser s →
        ∀ w ∈ (updateProfile e s).1, profileImpliesUser w) := by
  refine ⟨?_, ?_, ?_, ?_, ?_, ?_⟩
  · intro hdemo w hw
    unfold getInitialSession getInitialSessionRemote writeIf at hw
    repeat' split at hw
    all_goals simp at hw
    all_goals (try subst hw)
    all_goals first
      | exact fun h => h
      | exact fun _ => rfl
      | exact fun _ => hdemo _ (by assumption)
  · intro hp
    unfold handleAuthEvent
    repeat' split
    all_goals first
      | exact hp
      | exact fun h => h
      | exact fun _ => rfl
  · intro hp w hw
    unfold signIn at hw
    repeat' split at hw
    all_goals simp at hw
    all_goals (try rcases hw with hw | hw)
    all_goals (try subst hw)
    all_goals first
      | exact hp
      | exact fun h => h
      | exact fun _ => rfl
  · intro hp w hw
    unfold signUp at hw
    repeat' split at hw
    all_goals simp at hw
    all_goals (try rcases hw with hw | hw)
    all_goals (try subst hw)
    all_goals exact hp
  · intro hp w hw
    unfold signOut at hw
    repeat' split at hw
    all_goals simp at hw
    all_goals (try rcases hw with hw | hw)
    all_goals (try subst hw)
    all_goals first
      | exact hp
      | exact fun h => h
  · intro hp w hw
    unfold updateProfile at hw
    repeat' split at hw
    all_goals simp at hw
    all_goals (try rcases hw with hw | hw)
    all_goals (try subst hw)
    all_goals first
      | exact hp
      | exact fun h => h
      | exact fun _ => rfl
      | (intro _; simp_all)

/-- C6 counterexample: a `TOKEN_REFRESHED` event whose profile re-fetch
succeeds executes `setAuthState(prev => (\x7b...prev, user, profile,
error: null\x7d))` (lines 186–191): it resets `error` to null, altering an
already-settled non-null `error`. -/
theorem tokenRefresh_clears_settled_error :
    (handleAuthEvent envProfOk true .tokenRefreshed (some sampleSession)
        statePrevError).error = none ∧
      statePrevError.error = some "x" := by
  decide

/-- C6 amended: a `TOKEN_REFRESHED` event with a session never alters
`loading`; when the profile re-fetch fails nothing is written, so the
whole previous state — in particular `profile` — is unchanged; when it
succeeds the handler merges `user` and the fetched `profile` into the
previous state and resets `error` to null (altering a settled non-null
`error`). -/
theorem tokenRefresh_frame_amended (e : Env) (m : Bool)
    (sess : Option Session) (prev : AuthState) :
    (handleAuthEvent e m .tokenRefreshed sess prev).loading = prev.loading ∧
    (e.profileFetch = .corrupt →
        handleAuthEvent e m .tokenRefreshed sess prev = prev) ∧
    (∀ u p, sess.bind Session.user = some u → e.profileFetch = .ok p →
        handleAuthEvent e m .tokenRefreshed sess prev =
          if m then { prev with user := some u, profile := p, error := none }
          else prev) := by
  refine ⟨?_, ?_, ?_⟩
  · unfold handleAuthEvent
    repeat' split
    all_goals first
      | rfl
      | simp_all
  · intro hc
    unfold handleAuthEvent
    repeat' split
    all_goals simp_all
  · intro u p hu hp
    unfold handleAuthEvent
    cases m with
    | false => simp
    | true => simp [hu, hp]

/-- Witness for C6 amended at a concrete event. -/
theorem tokenRefresh_frame_amended_witness :
    (handleAuthEvent envSample true .tokenRefreshed (some sampleSession)
        statePrevError).loading = statePrevError.loading ∧
    (envSample.profileFetch = .corrupt →
        handleAuthEvent envSample true .tokenRefreshed (some sampleSession)
          statePrevError = statePrevError) ∧
    (∀ u p, (some sampleSession).bind Session.user = some u →
        envSample.profileFetch = .ok p →
        handleAuthEvent envSample true .tokenRefreshed (some sampleSession)
            statePrevError =
          if true then
            { statePrevError with user := some u, profile := p, error := none }
          else statePrevError) :=
  tokenRefresh_frame_amended envSample true (some sampleSession) statePrevError

/-- C7: the fallback round-trip. `signIn('demo','pass9981')` succeeds,
never contacts the identity service, and persists the presence flag and
the synthesized session/profile pair; a fresh activation over the
resulting store adopts exactly that cached identity and profile with
`loading=false` and `error=null`, again without contacting the service. -/
theorem demo_signin_roundtrip (e e2 : Env) (st : Store) (s : AuthState) :
    (signIn e st s "demo" "pass9981").result = ⟨true, none⟩ ∧
    (signIn e st s "demo" "pass9981").contactedService = false ∧
    (signIn e st s "demo" "pass9981").store =
      ⟨some "true", some (.ok ⟨some (demoUser e.now)⟩), some (.ok demoProfile)⟩ ∧
    (getInitialSession e2 (signIn e st s "demo" "pass9981").store true).contactedService
        = false ∧
    (getInitialSession e2 (signIn e st s "demo" "pass9981").store true).writes =
      [⟨some (demoUser e.now), some demoProfile, false, none⟩] := by
  refine ⟨rfl, rfl, rfl, rfl, rfl⟩

/-- C8 counterexample: with an endpoint set and the anon key absent, the
step-2 condition holds — initialization collapses to signed-out — yet
`checkSupabaseConnection` does not skip: its condition (line 147) checks
only the endpoint, so the subscription is still registered. -/
theorem key_missing_sub_still_registered :
    isUnconfigured envKeyless = true ∧
      subscriptionSkipped envKeyless = false ∧
      checkSupabaseConnection envKeyless = true ∧
      (getInitialSession envKeyless stEmpty true).writes = [signedOutState] := by
  decide

/-- C8 amended: the subscription decision of an activation is independent
of the store (hence of whether initialization adopted offline or remote
state) and the subscription is skipped iff the endpoint is absent or a
placeholder; that condition implies the step-2 unconfigured condition but
not conversely (the key is not consulted — see the counterexample). -/
theorem subscription_condition_amended (e : Env) (st1 st2 : Store) (m : Bool) :
    (activation e st1 m).2 = (activation e st2 m).2 ∧
    ((activation e st1 m).2 = false ↔ subscriptionSkipped e = true) ∧
    (subscriptionSkipped e = true → isUnconfigured e = true) := by
  refine ⟨rfl, ?_, ?_⟩
  · simp [activation, checkSupabaseConnection]
  · intro h
    unfold subscriptionSkipped at h
    unfold isUnconfigured
    rcases Bool.or_eq_true_iff.mp h with h1 | h2
    · simp [h1]
    · simp [h2]

/-- Witness for C8 amended at a concrete environment. -/
theorem subscription_condition_amended_witness :
    (activation envKeyless stEmpty true).2 =
        (activation envKeyless stBadDemo true).2 ∧
    ((activation envKeyless stEmpty true).2 = false ↔
        subscriptionSkipped envKeyless = true) ∧
    (subscriptionSkipped envKeyless = true →
        isUnconfigured envKeyless = true) :=
  subscription_condition_amended envKeyless stEmpty stBadDemo true

/-- C9: in the second draft of the `onAuthStateChange` handler
(lines 316–348) the `SIGNED_IN` branch awaits `getCurrentUserProfile()`
with no try/catch, so a profile-fetch rejection escapes the handler as an
unhandled rejection instead of being funneled into the state writer. -/
theorem draft2_signedIn_rejection_escapes :
    handleAuthEventDraft2 envSample true .signedIn (some sampleSession)
        signedOutState = .error () ∧
      handleAuthEvent envSample true .signedIn (some sampleSession)
        signedOutState = ⟨some sampleUser, none, false, none⟩ := by
  exact ⟨rfl, rfl⟩

/-- C10 counterexample: an identity whose `email_confirmed_at` is the
empty string is non-null, yet `!!authState.user?.email_confirmed_at` is
false, because the empty string is falsy in JavaScript. -/
theorem emptyString_confirmedAt_not_confirmed :
    isEmailConfirmed stateEmptyTs = false ∧
      (stateEmptyTs.user.bind User.email_confirmed_at) = some "" := by
  decide

/-- C10 amended: `isAuthenticated` iff `identity` is non-null;
`isEmailConfirmed` iff `identity` is non-null and its confirmation
timestamp is non-null and non-empty (string truthiness); and
`isOnboardingCompleted` iff `profile` is non-null and its
onboarding-completed flag is true. -/
theorem derived_booleans_amended (s : AuthState) :
    (isAuthenticated s = true ↔ s.user.isSome = true) ∧
    (isEmailConfirmed s = true ↔
      ∃ u ts, s.user = some u ∧ u.email_confirmed_at = some ts ∧ ts ≠ "") ∧
    (isOnboardingCompleted s = true ↔
      ∃ p, s.profile = some p ∧ p.onboarding_completed = true) := by
  refine ⟨Iff.rfl, ?_, ?_⟩
  · unfold isEmailConfirmed truthyStr
    cases hu : s.user with
    | none => simp
    | some u =>
      cases hts : u.email_confirmed_at with
      | none => simp [hts]
      | some ts => simp [hts]
  · unfold isOnboardingCompleted
    cases hp : s.profile with
    | none => simp
    | some p => simp

end UseAuth
